import Mathlib

/-!
# Verification of the ros-exporter collection engine

A shallow embedding, in Lean 4, of the MikroTik RouterOS Prometheus
exporter (repository taihen/ros-exporter).  Pure Go functions are
translated into Lean functions; the RouterOS command transport is
abstracted as environment-provided outcomes (a dial result, a scripted
list of command replies), since the network is external to the program.

Conventions used throughout:
* Go `map[string]string` reply attributes become association lists
  (`FieldMap`); RouterOS never produces duplicate keys, and `List.lookup`
  returns the first binding.
* Go `uint64` values become `Nat`; wrap-around is written explicitly as
  `% 2 ^ 64` at the one place the code can underflow (memory usage).
* Go `time.Duration` (an `int64` count of nanoseconds) becomes `Int`.
  Claim-relevant inputs are far below the `int64` range, so the wrap on
  overflow is not modelled.
* Go `float64` parsing of decimal strings is modelled by exact decimal
  arithmetic (the seconds field of a duration, health sensor readings).
  On every value appearing in the claims the two agree exactly.
* A Go `(value, error)` pair becomes either `value × Option String`
  (when callers read the value even in the error case, as Go callers of
  `parseMikrotikDuration` do) or `Except String value`.
-/

namespace RosExporter

/-- One reply sentence from the RouterOS API: an attribute map.
Go: `re.Map` of type `map[string]string`. -/
abbrev FieldMap := List (String × String)

/-- A structured reply: the list of `!re` sentences.
Go: `routeros.Reply`, field `Re`. -/
structure Reply where
  re : List FieldMap
deriving DecidableEq, Repr

/-- Go map indexing `m[key]`: the stored value, or `""` when absent. -/
def mget (m : FieldMap) (key : String) : String :=
  (m.lookup key).getD ""

/-- Whether the pattern occurs in the haystack as a leading run.
Helper for `hasSubstr`. -/
def leadsWith : List Char → List Char → Bool
  | [], _ => true
  | _ :: _, [] => false
  | a :: as, b :: bs => a == b && leadsWith as bs

/-- Whether `needle` occurs contiguously inside `hay`.
Embeds Go `strings.Contains(hay, needle)`. -/
def hasSubstr (needle : List Char) : List Char → Bool
  | [] => leadsWith needle []
  | c :: t => leadsWith needle (c :: t) || hasSubstr needle t

/-- Go `strings.Contains(s, sub)`. -/
def strContains (s sub : String) : Bool :=
  hasSubstr sub.toList s.toList

/-- Go `strings.ToLower`, restricted to ASCII case folding (the
exporter only ever matches against ASCII patterns such as "ppp").
Written over the character list so that it evaluates by reduction. -/
def strToLower (s : String) : String :=
  ⟨s.data.map Char.toLower⟩

/-- Equality of command/reply outcomes is decidable (needed to evaluate
the embedding at concrete witnesses). -/
instance exceptDecEq {ε α : Type} [DecidableEq ε] [DecidableEq α] :
    DecidableEq (Except ε α) := fun a b =>
  match a, b with
  | .error e, .error e' =>
    if h : e = e' then isTrue (by rw [h]) else
      isFalse (fun hh => h (Except.error.inj hh))
  | .error _, .ok _ => isFalse (fun hh => Except.noConfusion hh)
  | .ok _, .error _ => isFalse (fun hh => Except.noConfusion hh)
  | .ok v, .ok v' =>
    if h : v = v' then isTrue (by rw [h]) else
      isFalse (fun hh => h (Except.ok.inj hh))

/-- Decimal value of a digit string.  Helper for the numeric parsers. -/
def digitsVal (l : List Char) : Nat :=
  l.foldl (fun acc c => acc * 10 + (c.toNat - '0'.toNat)) 0

/-- Go `strconv.ParseUint(s, 10, 64)`: the parsed value together with
the error, if any.  On a syntax error Go returns `0`; on a range error
(value ≥ 2^64) it returns the maximum `uint64`. -/
def goParseUint64 (s : String) : Nat × Option String :=
  let l := s.toList
  if l.isEmpty || !(l.all Char.isDigit) then
    (0, some "invalid syntax")
  else if digitsVal l < 2 ^ 64 then
    (digitsVal l, none)
  else
    (2 ^ 64 - 1, some "value out of range")

/-- `parseBytes` from client.go: a non-empty unsigned decimal string,
zero (with an error) otherwise. -/
def parseBytes (byteStr : String) : Nat × Option String :=
  if byteStr = "" then
    (0, some "empty byte string")
  else
    match goParseUint64 byteStr with
    | (_, some e) => (0, some ("could not parse byte value: " ++ e))
    | (v, none) => (v, none)

/-- `parseBool` from client.go: case-insensitive comparison with "true". -/
def parseBool (boolStr : String) : Bool :=
  strToLower boolStr = "true"

/-- Go `strconv.ParseInt(s, 10, 64)` restricted to the digit/dot buffers
that `parseMikrotikDuration` accumulates (no sign is ever present):
succeeds exactly on non-empty all-digit strings whose value fits in a
signed 64-bit integer. -/
def parseIntBuf (buf : List Char) : Option Nat :=
  if !buf.isEmpty && buf.all Char.isDigit && digitsVal buf ≤ 2 ^ 63 - 1 then
    some (digitsVal buf)
  else
    none

/-- The seconds branch of `parseMikrotikDuration`: Go parses the buffer
with `strconv.ParseFloat` and truncates `fVal * 1e9` into a duration.
Modelled exactly: the buffer must consist of digits with at most one
decimal point and contain at least one digit; the result is the value
scaled to nanoseconds and truncated.  (Exact decimal arithmetic stands
in for `float64`; both are exact on the claims' inputs.) -/
def secBufToNanos (buf : List Char) : Option Nat :=
  if buf.all (fun c => c.isDigit || c == '.') then
    match buf.count '.' with
    | 0 =>
      if buf.isEmpty then none
      else some (digitsVal buf * 1000000000)
    | 1 =>
      let ipart := buf.takeWhile (fun c => c != '.')
      let fpart := (buf.dropWhile (fun c => c != '.')).drop 1
      if ipart.isEmpty && fpart.isEmpty then none
      else some (digitsVal ipart * 1000000000 +
                 digitsVal fpart * 1000000000 / 10 ^ fpart.length)
    | _ => none
  else
    none

/-- Nanoseconds per one unit character of a MikroTik duration:
`w` = 604800 s, `d` = 86400 s, `h` = 3600 s, `m` = 60 s, `s` = 1 s. -/
def unitNanos (c : Char) : Option Int :=
  if c == 'w' then some (604800 * 1000000000)
  else if c == 'd' then some (86400 * 1000000000)
  else if c == 'h' then some (3600 * 1000000000)
  else if c == 'm' then some (60 * 1000000000)
  else if c == 's' then some 1000000000
  else none

/-- The scanning loop of `parseMikrotikDuration`: walk the remaining
characters carrying the digit/dot buffer and the accumulated total (in
nanoseconds).  Digits and '.' are buffered; any other character is a
unit terminator: the buffer is converted (float path first for 's',
integer path otherwise) and multiplied into the total.  Errors mirror
the Go function, which returns a zero duration alongside the error. -/
def durLoop : List Char → List Char → Int → Int × Option String
  | [], buf, total =>
    if buf.isEmpty then (total, none)
    else (0, some "trailing number without unit in duration")
  | c :: rest, buf, total =>
    if c.isDigit || c == '.' then
      durLoop rest (buf ++ [c]) total
    else if buf.isEmpty then
      (0, some "invalid duration format near unit")
    else
      match if c == 's' then secBufToNanos buf else none with
      | some ns => durLoop rest [] (total + (ns : Int))
      | none =>
        match parseIntBuf buf with
        | none => (0, some "could not parse value in duration")
        | some v =>
          match unitNanos c with
          | some u => durLoop rest [] (total + (v : Int) * u)
          | none => (0, some "unknown duration unit")

/-- `parseMikrotikDuration` from client.go: total duration in
nanoseconds (Go `time.Duration`) plus the error, if any. -/
def parseMikrotikDuration (durationStr : String) : Int × Option String :=
  if durationStr = "" then
    (0, some "empty duration string")
  else
    durLoop durationStr.toList [] 0

/-! ## Field resolution (the candidate-field-list loops) -/

/-- The loop shape repeated throughout the collectors:
`for _, field := range candidates { if v, ok := m[field]; ok && v != "" { use v; break } }`.
Returns the value of the first candidate key that is present in the
reply map with a non-empty string. -/
def resolveFirst (candidates : List String) (m : FieldMap) : Option String :=
  match candidates with
  | [] => none
  | f :: rest =>
    match m.lookup f with
    | some v => if v ≠ "" then some v else resolveFirst rest m
    | none => resolveFirst rest m

/-- Counter resolution as `GetInterfaceStats` performs it: the first
present non-empty candidate is parsed with `parseBytes` (whose error is
discarded, leaving 0); when no candidate matches, the attribute keeps
its previous (zero) value. -/
def resolveCounter (candidates : List String) (m : FieldMap) (prev : Nat) : Nat :=
  match resolveFirst candidates m with
  | some s => (parseBytes s).1
  | none => prev

/-- Counter resolution as `GetBGPPeerStats` performs it: the raw
`strconv.ParseUint` value is kept, its error discarded. -/
def resolveUint (candidates : List String) (m : FieldMap) (prev : Nat) : Nat :=
  match resolveFirst candidates m with
  | some s => (goParseUint64 s).1
  | none => prev

/-! ## Interface statistics (`GetInterfaceStats`, client.go) -/

/-- `InterfaceStat` from client.go. -/
structure InterfaceStat where
  Name : String := ""
  -- Go field `Type` (a Lean keyword)
  IfaceType : String := ""
  Comment : String := ""
  MACAddress : String := ""
  Running : Bool := false
  Disabled : Bool := false
  RxBytes : Nat := 0
  TxBytes : Nat := 0
  RxPackets : Nat := 0
  TxPackets : Nat := 0
  RxErrors : Nat := 0
  TxErrors : Nat := 0
  RxDrops : Nat := 0
  TxDrops : Nat := 0
deriving DecidableEq, Repr

/-- The PPP/PPPoE exclusion test of `GetInterfaceStats`: skip when the
lower-cased type or name contains "ppp" or "pppoe". -/
def isPPPLike (name ifaceType : String) : Bool :=
  strContains (strToLower ifaceType) "ppp" ||
  strContains (strToLower ifaceType) "pppoe" ||
  strContains (strToLower name) "ppp" ||
  strContains (strToLower name) "pppoe"

/-- Phase 1 of `GetInterfaceStats`: build the base record list from the
initial `/interface/print` reply, skipping empty-name records and
PPP/PPPoE interfaces. -/
def buildInitial (res : List FieldMap) : List InterfaceStat :=
  res.foldl
    (fun acc m =>
      let name := mget m "name"
      if name = "" then acc
      else if isPPPLike name (mget m "type") then acc
      else acc ++ [{ Name := name, IfaceType := mget m "type" }])
    []

/-- Write through the `ifaceMap` pointer: Go's map stores a pointer to
the last slice element appended under a given name, so an update lands
on the last record whose `Name` matches (and nowhere when the name is
absent). -/
def updLast (f : InterfaceStat → InterfaceStat) (name : String) :
    List InterfaceStat → List InterfaceStat
  | [] => []
  | s :: rest =>
    if rest.any (fun t => t.Name = name) then s :: updLast f name rest
    else if s.Name = name then f s :: rest
    else s :: rest

/-- The detail-reply enrichment of one record: comment, MAC address,
running and disabled flags. -/
def enrichDetail (m : FieldMap) (s : InterfaceStat) : InterfaceStat :=
  { s with
    Comment := mget m "comment"
    MACAddress := mget m "mac-address"
    Running := parseBool (mget m "running")
    Disabled := parseBool (mget m "disabled") }

/-- The stats-reply counter merge of one record: each of the eight
counters resolves through its candidate field list. -/
def applyStats (m : FieldMap) (s : InterfaceStat) : InterfaceStat :=
  { s with
    RxBytes := resolveCounter ["rx-byte", "rx-bytes", "bytes-in"] m s.RxBytes
    TxBytes := resolveCounter ["tx-byte", "tx-bytes", "bytes-out"] m s.TxBytes
    RxPackets := resolveCounter ["rx-packet", "rx-packets", "packets-in"] m s.RxPackets
    TxPackets := resolveCounter ["tx-packet", "tx-packets", "packets-out"] m s.TxPackets
    RxErrors := resolveCounter ["rx-error", "rx-errors", "errors-in"] m s.RxErrors
    TxErrors := resolveCounter ["tx-error", "tx-errors", "errors-out"] m s.TxErrors
    RxDrops := resolveCounter ["rx-drop", "rx-drops", "drops-in"] m s.RxDrops
    TxDrops := resolveCounter ["tx-drop", "tx-drops", "drops-out"] m s.TxDrops }

/-- Phase 3 of `GetInterfaceStats`: fold the detail reply over the
record list, enriching (through the `ifaceMap` pointer) each record
whose name is tracked; a failed detail call is non-fatal and leaves the
records untouched. -/
def detailPhase (names : List String) (detail : Except String Reply)
    (stats : List InterfaceStat) : List InterfaceStat :=
  match detail with
  | .error _ => stats
  | .ok drep =>
    drep.re.foldl
      (fun acc m =>
        if mget m "name" ∈ names then updLast (enrichDetail m) (mget m "name") acc
        else acc)
      stats

/-- Phase 5 of `GetInterfaceStats`: fold the traffic-statistics reply
over the record list, merging counters into each tracked record;
records for names not in the tracked set are ignored. -/
def statsPhase (names : List String) (srepre : List FieldMap)
    (stats : List InterfaceStat) : List InterfaceStat :=
  srepre.foldl
    (fun acc m =>
      if mget m "name" ∈ names then updLast (applyStats m) (mget m "name") acc
      else acc)
    stats

/-- `GetInterfaceStats` from client.go, over the outcomes of its three
commands (`/interface/print`, the `detail` listing, the `stats`
listing).  The detail and stats phases mutate records in place through
`ifaceMap`, modelled by `updLast`; a failed detail or stats call (or an
empty stats reply) is non-fatal and returns what was gathered so far. -/
def GetInterfaceStats (initial detail statsR : Except String Reply) :
    Except String (List InterfaceStat) :=
  match initial with
  | .error e => .error ("failed to get initial interface names/types: " ++ e)
  | .ok rep =>
    let stats := buildInitial rep.re
    if stats.isEmpty then .ok stats
    else
      let stats2 := detailPhase (stats.map (fun s => s.Name)) detail stats
      match statsR with
      | .error _ => .ok stats2
      | .ok srep =>
        if srep.re.isEmpty then .ok stats2
        else .ok (statsPhase (stats.map (fun s => s.Name)) srep.re stats2)

/-! ## The command session (`Client`, client.go)

The network is external: `routeros.DialTimeout` is abstracted as an
environment-provided dial outcome, and the goroutine/timer race inside
`Run`/`RunArgs` as a `RunOutcome` saying which arm of the `select` won
(a reply, a device error, or the timeout). -/

/-- An abstract underlying `routeros.Client` connection. -/
structure Conn where
  id : Nat
deriving DecidableEq, Repr

/-- `Client` from client.go; `client` is the optional live connection. -/
structure Client where
  Address : String
  Username : String
  Password : String
  Timeout : Nat
  client : Option Conn := none
deriving DecidableEq, Repr

/-- `Connect` from client.go: dial (outcome supplied by the
environment) and, on success, store the new connection — the source has
no already-connected check, so an existing connection is overwritten.
The address/default-port computation only selects the dialled address
and is folded into the dial outcome. -/
def Connect (dial : Except String Conn) (c : Client) : Client × Option String :=
  match dial with
  | .error e => (c, some e)
  | .ok conn => ({ c with client := some conn }, none)

/-- `Close` from client.go: release the connection if present. -/
def Close (c : Client) : Client :=
  match c.client with
  | none => c
  | some _ => { c with client := none }

/-- Which arm of the `select` in `Run`/`RunArgs` fires first. -/
inductive RunOutcome where
  | reply (r : Reply)
  | deviceError (e : String)
  | timeout
deriving DecidableEq, Repr

/-- `Run` from client.go: connect first when disconnected (propagating
the dial error); then race the command against the timer.  A device
error or a timeout tears the session down (`Close`) before returning
the error. -/
def Run (dial : Except String Conn) (outcome : RunOutcome) (c : Client) :
    Client × Except String Reply :=
  match c.client with
  | none =>
    match Connect dial c with
    | (c1, some e) => (c1, .error e)
    | (c1, none) => runRace outcome c1
  | some _ => runRace outcome c
where
  /-- The `select` over the reply, error, and timeout channels. -/
  runRace (outcome : RunOutcome) (c1 : Client) : Client × Except String Reply :=
    match outcome with
    | .reply r => (c1, .ok r)
    | .deviceError e => (Close c1, .error e)
    | .timeout => (Close c1, .error "command timeout")

/-- `RunArgs` from client.go: identical control flow to `Run`, with the
command given as an argument slice. -/
def RunArgs (dial : Except String Conn) (outcome : RunOutcome) (c : Client) :
    Client × Except String Reply :=
  match c.client with
  | none =>
    match Connect dial c with
    | (c1, some e) => (c1, .error e)
    | (c1, none) => runRace outcome c1
  | some _ => runRace outcome c
where
  runRace (outcome : RunOutcome) (c1 : Client) : Client × Except String Reply :=
    match outcome with
    | .reply r => (c1, .ok r)
    | .deviceError e => (Close c1, .error e)
    | .timeout => (Close c1, .error "command timeout")

/-! ## BGP peer statistics (`GetBGPPeerStats`)

To make "the legacy command is attempted exactly once" a provable
statement, command execution is modelled against a scripted session: a
list of pending reply outcomes consumed in order, plus a log of the
commands issued. -/

/-- A scripted command session: pending outcomes and the issue log. -/
structure Session where
  script : List (Except String Reply)
  issued : List (List String) := []
deriving Repr

/-- Issue one command against a scripted session: consume the next
scripted outcome and record the command. -/
def sessionRun (cmd : List String) (s : Session) : Except String Reply × Session :=
  match s.script with
  | [] => (.error "no scripted reply", { s with issued := s.issued ++ [cmd] })
  | r :: rest => (r, { script := rest, issued := s.issued ++ [cmd] })

/-- The newer-generation (RouterOS 7+) peer-listing command. -/
def bgpCmdNew : List String := ["/routing/bgp/peer/print", "without-paging"]

/-- The legacy-generation (RouterOS 6.x) peer-listing command. -/
def bgpCmdOld : List String := ["/ip/bgp/peer/print", "without-paging"]

/-- The feature-unsupported test `GetBGPPeerStats` applies to an error
message: `strings.Contains(err.Error(), "no such command") ||
strings.Contains(err.Error(), "disabled")`. -/
def bgpUnsupported (e : String) : Bool :=
  strContains e "no such command" || strContains e "disabled"

/-- Go `fmt.Sprintf("%v", cmd)` for a `[]string`. -/
def goSliceRepr (cmd : List String) : String :=
  "[" ++ String.intercalate " " cmd ++ "]"

/-- `BGPPeerStat` from client.go (`Uptime` in nanoseconds). -/
structure BGPPeerStat where
  Name : String := ""
  Instance : String := ""
  RemoteAddress : String := ""
  RemoteAS : String := ""
  LocalAddress : String := ""
  LocalRole : String := ""
  RemoteRole : String := ""
  State : String := ""
  Uptime : Int := 0
  PrefixCount : Nat := 0
  UpdatesSent : Nat := 0
  UpdatesRecv : Nat := 0
  WithdrawsSent : Nat := 0
  WithdrawsRecv : Nat := 0
  Disabled : Bool := false
deriving DecidableEq, Repr

/-- The per-record body of the `GetBGPPeerStats` loop: `none` when the
record is skipped for having no name.  Uptime resolves from `uptime`,
falling back to `established-for`; parse failures leave the zero that
Go's `parseMikrotikDuration` returns alongside its error. -/
def parsePeer (m : FieldMap) : Option BGPPeerStat :=
  let name := mget m "name"
  if name = "" then none
  else
    let uptimeStr := mget m "uptime"
    let uptime :=
      if uptimeStr ≠ "" then (parseMikrotikDuration uptimeStr).1
      else
        match m.lookup "established-for" with
        | some ef => if ef ≠ "" then (parseMikrotikDuration ef).1 else 0
        | none => 0
    some
      { Name := name
        Instance := mget m "instance"
        RemoteAddress := mget m "remote-address"
        RemoteAS := mget m "remote-as"
        LocalAddress := mget m "local-address"
        LocalRole := mget m "local-role"
        RemoteRole := mget m "remote-role"
        State := (resolveFirst ["state", "connection-state", "status"] m).getD ""
        Uptime := uptime
        PrefixCount :=
          resolveUint ["prefix-count", "prefixes", "prefixes-count", "received-prefixes"] m 0
        UpdatesSent := resolveUint ["updates-sent", "sent-updates", "updates-out"] m 0
        UpdatesRecv := resolveUint ["updates-received", "received-updates", "updates-in"] m 0
        WithdrawsSent := resolveUint ["withdraws-sent", "sent-withdraws", "withdraws-out"] m 0
        WithdrawsRecv := resolveUint ["withdraws-received", "received-withdraws", "withdraws-in"] m 0
        Disabled :=
          match resolveFirst ["disabled", "inactive"] m with
          | some s => parseBool s
          | none => false }

/-- The peer-record loop of `GetBGPPeerStats`: parse each reply
sentence, skipping unnamed records. -/
def bgpPeersOf (rep : Reply) : List BGPPeerStat :=
  rep.re.foldl
    (fun acc m =>
      match parsePeer m with
      | some p => acc ++ [p]
      | none => acc)
    []

/-- `GetBGPPeerStats`: try the newer command; when (and only when) it is
rejected as unrecognized/disabled, try the legacy command once.  An
unsupported rejection of the final attempt yields an empty peer set with
no error; any other failure is returned carrying the attempted command. -/
def GetBGPPeerStats (s : Session) : Except String (List BGPPeerStat) × Session :=
  let (r1, s1) := sessionRun bgpCmdNew s
  let step :=
    match r1 with
    | .error e =>
      if bgpUnsupported e then
        let (r2, s2) := sessionRun bgpCmdOld s1
        (bgpCmdOld, r2, s2)
      else (bgpCmdNew, r1, s1)
    | .ok _ => (bgpCmdNew, r1, s1)
  match step with
  | (cmd, rF, sF) =>
    match rF with
    | .error e =>
      if bgpUnsupported e then (.ok [], sF)
      else
        (.error ("failed to get BGP peer details using command " ++
          goSliceRepr cmd ++ ": " ++ e), sF)
    | .ok rep => (.ok (bgpPeersOf rep), sF)

/-! ## System health (`GetSystemHealth`, client.go) -/

/-- Decimal digits with at most one '.' and at least one digit, as an
exact rational.  Fractional helper for `goParseFloat`. -/
def decBodyToRat (l : List Char) : Option ℚ :=
  if l.all (fun c => c.isDigit || c == '.') then
    match l.count '.' with
    | 0 =>
      if l.isEmpty then none
      else some (digitsVal l : ℚ)
    | 1 =>
      let ipart := l.takeWhile (fun c => c != '.')
      let fpart := (l.dropWhile (fun c => c != '.')).drop 1
      if ipart.isEmpty && fpart.isEmpty then none
      else some ((digitsVal ipart : ℚ) + (digitsVal fpart : ℚ) / 10 ^ fpart.length)
    | _ => none
  else
    none

/-- Go `strconv.ParseFloat(s, 64)` on the plain decimal strings health
sensors produce (optional sign, digits, optional fraction — exponent
forms and Inf/NaN spellings never occur here and are not modelled);
exact decimal arithmetic stands in for `float64`. -/
def goParseFloat (s : String) : Option ℚ :=
  match s.toList with
  | '-' :: rest => (decBodyToRat rest).map (fun q => -q)
  | '+' :: rest => decBodyToRat rest
  | l => decBodyToRat l

/-- Go `strings.TrimRight(s, cutset)`: drop trailing characters that
belong to the cutset. -/
def trimRight (s : String) (cutset : List Char) : String :=
  ⟨(s.toList.reverse.dropWhile (fun c => cutset.contains c)).reverse⟩

/-- `SystemHealth` from client.go (sensor readings as exact decimals). -/
structure SystemHealth where
  Temperature : ℚ := 0
  BoardTemperature : ℚ := 0
  Voltage : ℚ := 0
  Current : ℚ := 0
  PowerConsumed : ℚ := 0
  FanSpeed : Nat := 0
deriving DecidableEq, Repr

/-- The `parseFloat` closure inside `GetSystemHealth`: empty or
unparsable values give 0; the cutset "CVW RPM" of unit letters is
trimmed from the right first. -/
def healthParseFloat (healthData : FieldMap) (key : String) : ℚ :=
  let valStr := mget healthData key
  if valStr = "" then 0
  else
    match goParseFloat (trimRight valStr ['C', 'V', 'W', ' ', 'R', 'P', 'M']) with
    | none => 0
    | some v => v

/-- The `parseUint` closure inside `GetSystemHealth`: the cutset " RPM"
is trimmed from the right; any parse error gives 0. -/
def healthParseUint (healthData : FieldMap) (key : String) : Nat :=
  let valStr := mget healthData key
  if valStr = "" then 0
  else
    match goParseUint64 (trimRight valStr [' ', 'R', 'P', 'M']) with
    | (_, some _) => 0
    | (v, none) => v

/-- The feature-unsupported test `GetSystemHealth` applies to an error
message: `strings.Contains(err.Error(), "no such command") ||
strings.Contains(err.Error(), "unknown command name")`.  Note that,
unlike the BGP path, a "disabled" message is not recognized here. -/
def healthUnsupported (e : String) : Bool :=
  strContains e "no such command" || strContains e "unknown command name"

/-- `GetSystemHealth` from client.go over the outcome of its one
command: `.ok none` is Go's `(nil, nil)` "not supported" result. -/
def GetSystemHealth (run : Except String Reply) :
    Except String (Option SystemHealth) :=
  match run with
  | .error e =>
    if healthUnsupported e then .ok none
    else .error ("failed to get system health: " ++ e)
  | .ok rep =>
    match rep.re with
    | [] => .ok none
    | healthData :: _ =>
      let temp := healthParseFloat healthData "temperature"
      let boardTemp0 := healthParseFloat healthData "board-temperature"
      let boardTemp :=
        if boardTemp0 = 0 then healthParseFloat healthData "cpu-temperature"
        else boardTemp0
      let temp2 :=
        if temp = 0 ∧ boardTemp ≠ 0 ∧ mget healthData "temperature" = "" ∧
            mget healthData "cpu-temperature" ≠ "" then
          boardTemp
        else temp
      .ok (some
        { Temperature := temp2
          BoardTemperature := boardTemp
          Voltage := healthParseFloat healthData "voltage"
          Current := healthParseFloat healthData "current"
          PowerConsumed := healthParseFloat healthData "power-consumption"
          FanSpeed := healthParseUint healthData "fan1-speed" })

/-! ## The scrape orchestrator (`MikrotikCollector.Collect`, collector.go)

Each subsystem call's outcome is supplied by the environment (the
subsystem collectors themselves are verified separately above).  The
Prometheus channel sends are recorded as an ordered list of `Metric`
events; payloads that no claim mentions are compressed into tags, while
the control flow deciding *which* metrics are emitted — and the entire
`lastScrapeError` bookkeeping — is translated verbatim. -/

/-- `SystemResource` from client.go (`Uptime` in nanoseconds). -/
structure SystemResource where
  Uptime : Int := 0
  FreeMemory : Nat := 0
  TotalMemory : Nat := 0
  CPULoad : Nat := 0
  FreeHDDSpace : Nat := 0
  TotalHDDSpace : Nat := 0
  BoardName : String := ""
  Model : String := ""
  SerialNumber : String := ""
deriving DecidableEq, Repr

/-- `Routerboard` from client.go. -/
structure Routerboard where
  BoardName : String := ""
  Model : String := ""
  SerialNumber : String := ""
  FirmwareType : String := ""
  FactoryFirmware : String := ""
  CurrentFirmware : String := ""
  UpgradeFirmware : String := ""
deriving DecidableEq, Repr

/-- `PPPUserStat` from client.go. -/
structure PPPUserStat where
  Name : String := ""
  Service : String := ""
  CallerID : String := ""
  Address : String := ""
  Uptime : Int := 0
  UptimeStr : String := ""
  RxBytes : Nat := 0
  TxBytes : Nat := 0
deriving DecidableEq, Repr

/-- `WirelessInterface` from wireless.go (rates as exact decimals). -/
structure WirelessInterface where
  Name : String := ""
  SSID : String := ""
  Frequency : Int := 0
  SignalStrength : Int := 0
  TxRate : ℚ := 0
  RxRate : ℚ := 0
deriving DecidableEq, Repr

/-- `WirelessClient` from wireless.go. -/
structure WirelessClient where
  Interface : String := ""
  MacAddress : String := ""
  SignalStrength : Int := 0
  TxCCQ : Int := 0
  RxRate : String := ""
  TxRate : String := ""
  Uptime : String := ""
deriving DecidableEq, Repr

/-- One Prometheus channel send.  The three scrape-summary metrics and
the memory-usage gauge carry their values; everything else is a tag. -/
inductive Metric where
  | up (v : Bool)
  | scrapeDuration
  | lastScrapeError (v : Bool)
  | memoryUsage (v : Nat)
  | other (tag : String)
deriving DecidableEq, Repr

/-- The outcome of every external call `Collect` makes, supplied by the
environment.  `healthRes`/`wlIfRes`/`wlClientRes` distinguish Go's
`(nil, nil)` "not supported" result (`.ok none`) from data. -/
structure CollectorEnv where
  connectRes : Except String Unit
  sysRes : Except String SystemResource
  rbRes : Except String Routerboard
  ifRes : Except String (List InterfaceStat)
  healthRes : Except String (Option SystemHealth)
  bgpRes : Except String (List BGPPeerStat)
  pppRes : Except String (List PPPUserStat)
  wlIfRes : Except String (Option (List WirelessInterface))
  wlClientRes : Except String (Option (List WirelessClient))

/-- The three feature flags of `MikrotikCollector`. -/
structure MikrotikCollector where
  collectBGP : Bool
  collectPPP : Bool
  collectWireless : Bool
deriving DecidableEq, Repr

/-- What one `Collect` run produced: the ordered channel sends and the
subsystem collectors that were invoked. -/
structure ScrapeResult where
  metrics : List Metric
  invoked : List String
deriving DecidableEq, Repr

/-- Whether an outcome is an error. -/
def isErr : Except String α → Bool
  | .error _ => true
  | .ok _ => false

/-- The `lastScrapeError` bookkeeping of `Collect`, translated
assignment by assignment: each subsystem's error sets the flag only
under the guard conditions the source writes (all previous subsystem
errors nil), and the flag is never cleared. -/
def scrapeErrorFlag (mc : MikrotikCollector) (env : CollectorEnv) : Bool :=
  let sE := isErr env.sysRes
  let rE := isErr env.rbRes
  let iE := isErr env.ifRes
  let hE := isErr env.healthRes
  let bE := isErr env.bgpRes
  let pE := isErr env.pppRes
  let wiE := isErr env.wlIfRes
  let wcE := isErr env.wlClientRes
  let f1 := sE
  let f2 := f1 || (rE && !sE)
  let f3 := f2 || (iE && (!sE && !rE))
  let f4 := f3 || (hE && (!sE && !rE && !iE))
  let f5 := if mc.collectBGP then f4 || (bE && (!sE && !rE && !iE)) else f4
  let f6 :=
    if mc.collectPPP then
      f5 || (pE && (!sE && !rE && !iE && (!mc.collectBGP || !bE) && !hE))
    else f5
  let f7 :=
    if mc.collectWireless then
      f6 || (wiE && (!sE && !rE && !iE && (!mc.collectBGP || !bE) &&
        (!mc.collectPPP || !pE) && !hE))
    else f6
  let f8 :=
    if mc.collectWireless then
      f7 || (wcE && (!sE && !rE && !iE && (!mc.collectBGP || !bE) &&
        (!mc.collectPPP || !pE) && !hE && !wiE))
    else f7
  f8

/-- System-resource metric sends: the memory-usage gauge is
`TotalMemory - FreeMemory` in Go `uint64` arithmetic, i.e. modulo 2^64
(the subsequent conversion to `float64` only rounds the magnitude and
is not modelled). -/
def sysMetricsOf (r : SystemResource) : List Metric :=
  [.other "cpuLoad",
   .memoryUsage ((r.TotalMemory + 2 ^ 64 - r.FreeMemory) % 2 ^ 64),
   .other "totalMemory",
   .other "uptime",
   .other "storageTotal",
   .other "storageFree",
   .other "storageUsed"]

/-- Routerboard metric sends: a board-info record is emitted only when
system resources succeeded (with empty labels when the routerboard call
itself failed). -/
def rbMetricsOf (env : CollectorEnv) : List Metric :=
  match env.rbRes with
  | .error _ => if isErr env.sysRes then [] else [.other "boardInfoEmptyLabels"]
  | .ok _ => if isErr env.sysRes then [] else [.other "boardInfo"]

/-- Interface metric sends: nine metrics per interface record. -/
def ifaceMetricsOf : Except String (List InterfaceStat) → List Metric
  | .error _ => []
  | .ok stats =>
    stats.foldl
      (fun acc _ => acc ++
        [.other "interfaceInfo", .other "ifaceRxBytes", .other "ifaceTxBytes",
         .other "ifaceRxPackets", .other "ifaceTxPackets", .other "ifaceRxErrors",
         .other "ifaceTxErrors", .other "ifaceRxDrops", .other "ifaceTxDrops"])
      []

/-- Health metric sends: each sensor is emitted only when non-zero (the
board temperature additionally only when distinct from the CPU one). -/
def healthMetricsOf : Except String (Option SystemHealth) → List Metric
  | .error _ => []
  | .ok none => []
  | .ok (some h) =>
    (if h.Temperature ≠ 0 then [.other "temperature"] else []) ++
    (if h.BoardTemperature ≠ 0 ∧ h.BoardTemperature ≠ h.Temperature then
      [.other "boardTemperature"] else []) ++
    (if h.Voltage ≠ 0 then [.other "voltage"] else []) ++
    (if h.Current ≠ 0 then [.other "current"] else []) ++
    (if h.PowerConsumed ≠ 0 then [.other "powerConsumed"] else []) ++
    (if h.FanSpeed ≠ 0 then [.other "fanSpeed"] else [])

/-- BGP metric sends: eight metrics per peer, when collection is
enabled and succeeded. -/
def bgpMetricsOf (mc : MikrotikCollector) (env : CollectorEnv) : List Metric :=
  if !mc.collectBGP then []
  else
    match env.bgpRes with
    | .error _ => []
    | .ok peers =>
      peers.foldl
        (fun acc _ => acc ++
          [.other "bgpPeerInfo", .other "bgpPeerState", .other "bgpPeerUptime",
           .other "bgpPeerPrefixCount", .other "bgpPeerUpdatesSent",
           .other "bgpPeerUpdatesRecv", .other "bgpPeerWithdrawsSent",
           .other "bgpPeerWithdrawsRecv"])
        []

/-- PPP metric sends: the active-user count, then two metrics per user. -/
def pppMetricsOf (mc : MikrotikCollector) (env : CollectorEnv) : List Metric :=
  if !mc.collectPPP then []
  else
    match env.pppRes with
    | .error _ => []
    | .ok users =>
      [.other "pppActiveCount"] ++
      users.foldl
        (fun acc _ => acc ++ [.other "pppUserInfo", .other "pppUserUptime"]) []

/-- Wireless-interface metric sends: info always, signal/tx/rx rate
conditionally, per interface; nothing when the fetch failed or reported
"not supported" (`nil`). -/
def wlIfMetricsOf (mc : MikrotikCollector) (env : CollectorEnv) : List Metric :=
  if !mc.collectWireless then []
  else
    match env.wlIfRes with
    | .error _ => []
    | .ok none => []
    | .ok (some ifaces) =>
      ifaces.foldl
        (fun acc i => acc ++
          [.other "wirelessInterfaceInfo"] ++
          (if i.SignalStrength ≠ 0 then [.other "wirelessInterfaceSignal"] else []) ++
          (if i.TxRate > 0 then [.other "wirelessInterfaceTxRate"] else []) ++
          (if i.RxRate > 0 then [.other "wirelessInterfaceRxRate"] else []))
        []

/-- Wireless-client metric sends: per-client info plus conditional
signal/CCQ metrics, then one active-client count per distinct interface
(Go iterates a map here; the order is modelled as first appearance). -/
def wlClientMetricsOf (mc : MikrotikCollector) (env : CollectorEnv) : List Metric :=
  if !mc.collectWireless then []
  else
    match env.wlClientRes with
    | .error _ => []
    | .ok none => []
    | .ok (some cls) =>
      cls.foldl
        (fun acc cl => acc ++
          [.other "wirelessClientInfo"] ++
          (if cl.SignalStrength ≠ 0 then [.other "wirelessClientSignal"] else []) ++
          (if cl.TxCCQ ≠ 0 then [.other "wirelessClientTxCCQ"] else []))
        [] ++
      ((cls.map (fun cl => cl.Interface)).eraseDups.map
        (fun _ => Metric.other "wirelessActiveClients"))

/-- The subsystem collectors `Collect` invokes after a successful
connect, in source order, honouring the feature flags. -/
def invokedList (mc : MikrotikCollector) : List String :=
  ["GetSystemResources", "GetRouterboard", "GetInterfaceStats", "GetSystemHealth"] ++
  (if mc.collectBGP then ["GetBGPPeerStats"] else []) ++
  (if mc.collectPPP then ["GetPPPActiveUsers"] else []) ++
  (if mc.collectWireless then ["FetchWirelessInterfaces", "FetchWirelessClients"] else [])

/-- The metric sends between connect and the final summary. -/
def collectBody (mc : MikrotikCollector) (env : CollectorEnv) : List Metric :=
  (match env.sysRes with
   | .error _ => []
   | .ok r => sysMetricsOf r) ++
  rbMetricsOf env ++
  ifaceMetricsOf env.ifRes ++
  healthMetricsOf env.healthRes ++
  bgpMetricsOf mc env ++
  pppMetricsOf mc env ++
  wlIfMetricsOf mc env ++
  wlClientMetricsOf mc env

/-- `MikrotikCollector.Collect` from collector.go.  On connect failure
the scrape terminates immediately with `up=0`, `lastScrapeError=1` and
the duration — no subsystem collector runs.  On success `up` stays 1,
every subsystem runs per its flag, and the three summary metrics are
emitted last. -/
def Collect (mc : MikrotikCollector) (env : CollectorEnv) : ScrapeResult :=
  match env.connectRes with
  | .error _ =>
    { metrics := [.up false, .scrapeDuration, .lastScrapeError true]
      invoked := [] }
  | .ok _ =>
    { metrics := collectBody mc env ++
        [.up true, .scrapeDuration, .lastScrapeError (scrapeErrorFlag mc env)]
      invoked := invokedList mc }

/-! ## Theorems -/

/-- C2: `parseMikrotikDuration` scans left to right, accumulating
digits/decimal points and converting the buffer at each unit character
(w=604800s, d=86400s, h=3600s, m=60s, s=1s; only seconds may be
fractional).  "4w2d3h37m8.5s" is exactly 4 weeks + 2 days + 3 hours +
37 minutes + 8.5 seconds; the empty string, "10" (digits without a
unit), "10x" (unknown unit), and a unit character preceded by an empty
buffer each yield a format error with a zero duration. -/
theorem parseMikrotikDuration_spec :
    parseMikrotikDuration "4w2d3h37m8.5s" =
      (((4 * 604800 + 2 * 86400 + 3 * 3600 + 37 * 60) * 1000000000 +
        (85 * 1000000000) / 10 : Int), none) ∧
    parseMikrotikDuration "1w" = (604800 * 1000000000, none) ∧
    parseMikrotikDuration "1d" = (86400 * 1000000000, none) ∧
    parseMikrotikDuration "1h" = (3600 * 1000000000, none) ∧
    parseMikrotikDuration "1m" = (60 * 1000000000, none) ∧
    parseMikrotikDuration "1s" = (1000000000, none) ∧
    parseMikrotikDuration "1.5s" = (1500000000, none) ∧
    parseMikrotikDuration "1.5m" = (0, some "could not parse value in duration") ∧
    parseMikrotikDuration "" = (0, some "empty duration string") ∧
    parseMikrotikDuration "10" = (0, some "trailing number without unit in duration") ∧
    parseMikrotikDuration "10x" = (0, some "unknown duration unit") ∧
    (∀ c : Char, c.isDigit = false → (c == '.') = false →
      parseMikrotikDuration ⟨[c]⟩ = (0, some "invalid duration format near unit")) := by
  refine ⟨by decide, by decide, by decide, by decide, by decide, by decide,
    by decide, by decide, by decide, by decide, by decide, ?_⟩
  intro c h1 h2
  have hne : (String.mk [c]) ≠ "" := by
    intro h
    have := congrArg String.data h
    simp at this
  rw [parseMikrotikDuration, if_neg hne]
  show durLoop [c] [] 0 = _
  rw [durLoop]
  simp [h1, h2]

/-- C2 witness: the universally quantified error case instantiated at
the concrete unit character 'x'. -/
theorem parseMikrotikDuration_spec_witness :
    parseMikrotikDuration ⟨['x']⟩ = (0, some "invalid duration format near unit") :=
  parseMikrotikDuration_spec.2.2.2.2.2.2.2.2.2.2.2 'x' (by decide) (by decide)

/-- The field-resolution policy as the spec words it: the first
candidate whose value in the reply map is present and non-empty. -/
def specFirstNonEmpty (candidates : List String) (m : FieldMap) : Option String :=
  ((candidates.filter (fun f => mget m f ≠ "")).head?).map (fun f => mget m f)

/-- C8: the candidate-field-list loop resolves to the parsed value of
the first candidate present with a non-empty string (shown by proving
the loop equal to the declarative first-present-non-empty rule); when
no candidate is present and non-empty the attribute keeps its zero
value; in particular rx bytes over ["rx-byte","rx-bytes","bytes-in"]
against a map holding only bytes-in="42" resolves to 42. -/
theorem resolveCounter_spec :
    (∀ (candidates : List String) (m : FieldMap),
      resolveFirst candidates m = specFirstNonEmpty candidates m) ∧
    (∀ (candidates : List String) (m : FieldMap) (z : Nat),
      (∀ f ∈ candidates, mget m f = "") → resolveCounter candidates m z = z) ∧
    resolveCounter ["rx-byte", "rx-bytes", "bytes-in"] [("bytes-in", "42")] 0 = 42 := by
  refine ⟨?_, ?_, by decide⟩
  · intro candidates m
    induction candidates with
    | nil => rfl
    | cons f rest ih =>
      rw [resolveFirst, specFirstNonEmpty]
      rcases hl : m.lookup f with _ | v
      · simp [List.filter, mget, hl, ih, specFirstNonEmpty]
      · by_cases hv : v = ""
        · simp [List.filter, mget, hl, hv, ih, specFirstNonEmpty]
        · simp [List.filter, mget, hl, hv]
  · intro candidates m z hall
    have hnone : resolveFirst candidates m = none := by
      induction candidates with
      | nil => rfl
      | cons f rest ih =>
        have hf := hall f (by simp)
        rw [resolveFirst]
        rcases hl : m.lookup f with _ | v
        · exact ih (fun g hg => hall g (by simp [hg]))
        · have : v = "" := by simpa [mget, hl] using hf
          simp [this, ih (fun g hg => hall g (by simp [hg]))]
    rw [resolveCounter, hnone]

/-- C8 witness: with no candidate present, the attribute keeps its
previous value. -/
theorem resolveCounter_spec_witness :
    resolveCounter ["rx-byte", "rx-bytes", "bytes-in"] [("other", "1")] 7 = 7 :=
  resolveCounter_spec.2.1 _ [("other", "1")] 7 (by decide)

/-- C6 counterexample: `Connect` on an already-connected session is not
a no-op — the source dials unconditionally and overwrites the stored
connection, so a connected client with connection 0 ends up holding the
freshly dialled connection 1. -/
theorem Connect_not_noop :
    ¬ (Connect (.ok ⟨1⟩)
        { Address := "192.0.2.1", Username := "u", Password := "p",
          Timeout := 10, client := some ⟨0⟩ } =
       ({ Address := "192.0.2.1", Username := "u", Password := "p",
          Timeout := 10, client := some ⟨0⟩ }, none)) := by
  intro h
  have := congrArg (fun p => p.1.client) h
  simp [Connect] at this

/-- C6 (amended): `Connect` always dials; on success it stores the new
connection — replacing any existing one — and returns no error; on dial
failure it leaves the client unchanged and returns the error. -/
theorem Connect_always_dials (dial : Except String Conn) (c : Client) :
    (∀ conn, dial = .ok conn → Connect dial c = ({ c with client := some conn }, none)) ∧
    (∀ e, dial = .error e → Connect dial c = (c, some e)) := by
  constructor
  · intro conn h
    rw [h, Connect]
  · intro e h
    rw [h, Connect]

/-- C6 witness: the amended behaviour at a concrete dial outcome and
client. -/
theorem Connect_always_dials_witness :
    Connect (.ok ⟨7⟩)
        { Address := "a", Username := "u", Password := "p",
          Timeout := 5, client := some ⟨3⟩ } =
      ({ Address := "a", Username := "u", Password := "p",
         Timeout := 5, client := some ⟨7⟩ }, none) :=
  (Connect_always_dials (.ok ⟨7⟩) _).1 ⟨7⟩ rfl

/-- C7: `Run`/`RunArgs` connect first when the session is disconnected,
propagating the dial error; a device error or a timeout closes and
clears the connection before the error (resp. the timeout error) is
returned; and any subsequent command on a cleared session re-establishes
a fresh connection, so a failed session is never reused half-open. -/
theorem Run_teardown_spec (dial : Except String Conn) (outc : RunOutcome) (c : Client) :
    (∀ e, c.client = none → dial = .error e →
      Run dial outc c = (c, .error e) ∧ RunArgs dial outc c = (c, .error e)) ∧
    (∀ e, outc = .deviceError e → (c.client ≠ none ∨ isErr dial = false) →
      ((Run dial outc c).1.client = none ∧ (Run dial outc c).2 = .error e ∧
       (RunArgs dial outc c).1.client = none ∧ (RunArgs dial outc c).2 = .error e)) ∧
    (outc = .timeout → (c.client ≠ none ∨ isErr dial = false) →
      ((Run dial outc c).1.client = none ∧
       (Run dial outc c).2 = .error "command timeout" ∧
       (RunArgs dial outc c).1.client = none ∧
       (RunArgs dial outc c).2 = .error "command timeout")) ∧
    (∀ (c' : Client) (conn2 : Conn) (r : Reply), c'.client = none →
      Run (.ok conn2) (.reply r) c' = ({ c' with client := some conn2 }, .ok r) ∧
      RunArgs (.ok conn2) (.reply r) c' = ({ c' with client := some conn2 }, .ok r)) := by
  refine ⟨?_, ?_, ?_, ?_⟩
  · intro e hc hd
    rw [hd]
    constructor
    · rw [Run, hc]
      rfl
    · rw [RunArgs, hc]
      rfl
  · intro e ho hlive
    subst ho
    rcases hc : c.client with _ | conn
    · rcases hd : dial with e' | conn'
      · rcases hlive with h | h
        · exact absurd hc h
        · rw [hd] at h
          simp [isErr] at h
      · rw [Run, RunArgs, hc]
        simp [Connect, Run.runRace, RunArgs.runRace, Close]
    · rw [Run, RunArgs, hc]
      simp [Run.runRace, RunArgs.runRace, Close, hc]
  · intro ho hlive
    subst ho
    rcases hc : c.client with _ | conn
    · rcases hd : dial with e' | conn'
      · rcases hlive with h | h
        · exact absurd hc h
        · rw [hd] at h
          simp [isErr] at h
      · rw [Run, RunArgs, hc]
        simp [Connect, Run.runRace, RunArgs.runRace, Close]
    · rw [Run, RunArgs, hc]
      simp [Run.runRace, RunArgs.runRace, Close, hc]
  · intro c' conn2 r hc
    rw [Run, RunArgs, hc]
    simp [Connect, Run.runRace, RunArgs.runRace]

/-- C7 witness: a disconnected client whose command errors on the
device — the session is torn down and the error surfaces. -/
theorem Run_teardown_spec_witness :
    ((Run (.ok ⟨4⟩) (.deviceError "bad command")
        { Address := "a", Username := "u", Password := "p",
          Timeout := 5, client := none }).1.client = none ∧
     (Run (.ok ⟨4⟩) (.deviceError "bad command")
        { Address := "a", Username := "u", Password := "p",
          Timeout := 5, client := none }).2 = .error "bad command" ∧
     (RunArgs (.ok ⟨4⟩) (.deviceError "bad command")
        { Address := "a", Username := "u", Password := "p",
          Timeout := 5, client := none }).1.client = none ∧
     (RunArgs (.ok ⟨4⟩) (.deviceError "bad command")
        { Address := "a", Username := "u", Password := "p",
          Timeout := 5, client := none }).2 = .error "bad command") :=
  (Run_teardown_spec (.ok ⟨4⟩) (.deviceError "bad command") _).2.1
    "bad command" rfl (Or.inr rfl)

/-- C5 counterexample: a "feature disabled" device response is not
treated as feature-not-supported by `GetSystemHealth` — unlike the BGP
path, its unsupported test only recognizes "no such command" and
"unknown command name", so the error is propagated instead of yielding
the claimed no-record/no-error result. -/
theorem GetSystemHealth_disabled_errors :
    GetSystemHealth (.error "feature disabled") =
      .error "failed to get system health: feature disabled" := by
  rfl

/-- C5 (amended): `GetSystemHealth` treats a command-not-recognized
response ("no such command" / "unknown command name") and a zero-record
reply as feature-not-supported, returning no record and no error; any
other command failure — including a "feature disabled" response — is
returned as an error. -/
theorem GetSystemHealth_unsupported_spec :
    (∀ e, healthUnsupported e = true → GetSystemHealth (.error e) = .ok none) ∧
    (∀ e, healthUnsupported e = false →
      GetSystemHealth (.error e) = .error ("failed to get system health: " ++ e)) ∧
    (∀ rep, rep.re = [] → GetSystemHealth (.ok rep) = .ok none) ∧
    (∀ e, strContains e "no such command" = true → healthUnsupported e = true) ∧
    (∀ e, strContains e "unknown command name" = true → healthUnsupported e = true) := by
  refine ⟨?_, ?_, ?_, ?_, ?_⟩
  · intro e h
    rw [GetSystemHealth, h]
    rfl
  · intro e h
    rw [GetSystemHealth, h]
    rfl
  · intro rep h
    rw [GetSystemHealth, h]
  · intro e h
    rw [healthUnsupported, h]
    rfl
  · intro e h
    rw [healthUnsupported, h]
    simp

/-- C5 witness: the amended behaviour at concrete inputs — a "no such
command" rejection and an empty reply both give no record and no error;
a genuine failure propagates. -/
theorem GetSystemHealth_unsupported_spec_witness :
    GetSystemHealth (.error "no such command (/system/health/print)") = .ok none ∧
    GetSystemHealth (.ok ⟨[]⟩) = .ok none ∧
    GetSystemHealth (.error "connection reset") =
      .error "failed to get system health: connection reset" :=
  ⟨GetSystemHealth_unsupported_spec.1 _ (by decide),
   GetSystemHealth_unsupported_spec.2.2.1 ⟨[]⟩ rfl,
   GetSystemHealth_unsupported_spec.2.1 _ (by decide)⟩

/-- C4: `GetBGPPeerStats` issues the newer-generation command first; the
legacy command is attempted — exactly once — only when the first is
rejected as unrecognized/disabled; if the legacy attempt is also
rejected as unrecognized/disabled the result is an empty peer set with
no error; any other failure is returned as an error carrying the
attempted command, and a non-unsupported failure of the first command
returns without trying the legacy path (the issue log shows only the
newer command). -/
theorem GetBGPPeerStats_fallback_spec (s : Session) :
    (∀ rep rest, s.script = .ok rep :: rest →
      GetBGPPeerStats s =
        (.ok (bgpPeersOf rep),
         { script := rest, issued := s.issued ++ [bgpCmdNew] })) ∧
    (∀ e rest, s.script = .error e :: rest → bgpUnsupported e = false →
      GetBGPPeerStats s =
        (.error ("failed to get BGP peer details using command " ++
           goSliceRepr bgpCmdNew ++ ": " ++ e),
         { script := rest, issued := s.issued ++ [bgpCmdNew] })) ∧
    (∀ e1 rest, s.script = .error e1 :: rest → bgpUnsupported e1 = true →
      (GetBGPPeerStats s).2.issued = s.issued ++ [bgpCmdNew, bgpCmdOld] ∧
      (∀ e2 rest2, rest = .error e2 :: rest2 → bgpUnsupported e2 = true →
        (GetBGPPeerStats s).1 = .ok []) ∧
      (∀ e2 rest2, rest = .error e2 :: rest2 → bgpUnsupported e2 = false →
        (GetBGPPeerStats s).1 =
          .error ("failed to get BGP peer details using command " ++
            goSliceRepr bgpCmdOld ++ ": " ++ e2)) ∧
      (∀ rep rest2, rest = .ok rep :: rest2 →
        (GetBGPPeerStats s).1 = .ok (bgpPeersOf rep))) := by
  refine ⟨?_, ?_, ?_⟩
  · intro rep rest h
    rw [GetBGPPeerStats, sessionRun, h]
  · intro e rest h hu
    rw [GetBGPPeerStats, sessionRun, h]
    simp [hu]
  · intro e1 rest h hu
    refine ⟨?_, ?_, ?_, ?_⟩
    · rw [GetBGPPeerStats, sessionRun, h]
      simp only [hu, if_true]
      rcases rest with _ | ⟨r2, rest2⟩
      · rw [sessionRun]
        simp [bgpUnsupported, strContains, hasSubstr, leadsWith]
      · rw [sessionRun]
        rcases r2 with e2 | rep2
        · by_cases h2 : bgpUnsupported e2 <;> simp [h2, List.append_assoc]
        · simp [List.append_assoc]
    · intro e2 rest2 h2 hu2
      subst h2
      rw [GetBGPPeerStats, sessionRun, h]
      simp [hu, sessionRun, hu2]
    · intro e2 rest2 h2 hu2
      subst h2
      rw [GetBGPPeerStats, sessionRun, h]
      simp [hu, sessionRun, hu2]
    · intro rep rest2 h2
      subst h2
      rw [GetBGPPeerStats, sessionRun, h]
      simp [hu, sessionRun]

/-- C4 witness: a session scripted to reject the newer command as "no
such command" and the legacy command as "disabled" yields an empty peer
set with no error, and the issue log shows each command exactly once, in
order. -/
theorem GetBGPPeerStats_fallback_spec_witness :
    (GetBGPPeerStats
        { script := [.error "no such command", .error "BGP feature disabled"],
          issued := [] }).2.issued = [bgpCmdNew, bgpCmdOld] ∧
    (GetBGPPeerStats
        { script := [.error "no such command", .error "BGP feature disabled"],
          issued := [] }).1 = .ok [] := by
  have h := (GetBGPPeerStats_fallback_spec
    { script := [.error "no such command", .error "BGP feature disabled"],
      issued := [] }).2.2 "no such command" [.error "BGP feature disabled"]
    rfl (by decide)
  exact ⟨h.1, h.2.1 "BGP feature disabled" [] rfl (by decide)⟩

/-- A fold preserves a property of the accumulated list elements as
soon as each step does. -/
theorem foldl_inv {α β : Type} (P : β → Prop) (step : List β → α → List β)
    (hstep : ∀ acc a, (∀ s ∈ acc, P s) → ∀ s ∈ step acc a, P s) :
    ∀ (l : List α) (acc : List β), (∀ s ∈ acc, P s) → ∀ s ∈ l.foldl step acc, P s := by
  intro l
  induction l with
  | nil => intro acc h; simpa using h
  | cons a rest ih =>
    intro acc h
    rw [List.foldl_cons]
    exact ih _ (hstep acc a h)

/-- Every element of `updLast f name l` is an element of `l` or the
image under `f` of one. -/
theorem updLast_mem (f : InterfaceStat → InterfaceStat) (name : String) :
    ∀ (l : List InterfaceStat), ∀ s ∈ updLast f name l,
      s ∈ l ∨ ∃ t, t ∈ l ∧ s = f t := by
  intro l
  induction l with
  | nil => intro s hs; simp [updLast] at hs
  | cons a rest ih =>
    intro s hs
    rw [updLast] at hs
    by_cases h1 : rest.any (fun t => t.Name = name)
    · rw [if_pos h1] at hs
      rcases List.mem_cons.mp hs with rfl | hs'
      · exact Or.inl (List.mem_cons_self _ _)
      · rcases ih s hs' with h | ⟨t, ht, rfl⟩
        · exact Or.inl (List.mem_cons_of_mem _ h)
        · exact Or.inr ⟨t, List.mem_cons_of_mem _ ht, rfl⟩
    · rw [if_neg h1] at hs
      by_cases h2 : a.Name = name
      · rw [if_pos h2] at hs
        rcases List.mem_cons.mp hs with rfl | hs'
        · exact Or.inr ⟨a, List.mem_cons_self _ _, rfl⟩
        · exact Or.inl (List.mem_cons_of_mem _ hs')
      · rw [if_neg h2] at hs
        exact Or.inl hs

/-- The base invariant `buildInitial` establishes: every record it
emits is named and passed the PPP/PPPoE exclusion test. -/
theorem buildInitial_mem (res : List FieldMap) :
    ∀ s ∈ buildInitial res,
      s.Name ≠ "" ∧ isPPPLike s.Name s.IfaceType = false := by
  rw [buildInitial]
  refine foldl_inv _ _ ?_ res [] (by simp)
  intro acc m h s hs
  dsimp only at hs
  by_cases h1 : mget m "name" = ""
  · rw [if_pos h1] at hs
    exact h s hs
  · rw [if_neg h1] at hs
    cases hppp : isPPPLike (mget m "name") (mget m "type") with
    | true =>
      rw [if_pos hppp] at hs
      exact h s hs
    | false =>
      rw [if_neg (by simp [hppp])] at hs
      rcases List.mem_append.mp hs with hl | hr
      · exact h s hl
      · obtain rfl := List.mem_singleton.mp hr
        exact ⟨h1, hppp⟩

/-- The invariant is preserved by the detail-enrichment phase, which
only rewrites fields other than the name and the type. -/
theorem detailPhase_mem (names : List String) (detail : Except String Reply)
    (stats : List InterfaceStat)
    (h : ∀ s ∈ stats, s.Name ≠ "" ∧ isPPPLike s.Name s.IfaceType = false) :
    ∀ s ∈ detailPhase names detail stats,
      s.Name ≠ "" ∧ isPPPLike s.Name s.IfaceType = false := by
  rcases detail with e | drep
  · exact h
  · rw [detailPhase]
    refine foldl_inv _ _ ?_ drep.re stats h
    intro acc m hacc s hs
    by_cases hn : mget m "name" ∈ names
    · rw [if_pos hn] at hs
      rcases updLast_mem _ _ _ s hs with hmem | ⟨t, ht, rfl⟩
      · exact hacc s hmem
      · simpa [enrichDetail] using hacc t ht
    · rw [if_neg hn] at hs
      exact hacc s hs

/-- The invariant is preserved by the counter-merge phase, which only
rewrites the eight counters. -/
theorem statsPhase_mem (names : List String) (srepre : List FieldMap)
    (stats : List InterfaceStat)
    (h : ∀ s ∈ stats, s.Name ≠ "" ∧ isPPPLike s.Name s.IfaceType = false) :
    ∀ s ∈ statsPhase names srepre stats,
      s.Name ≠ "" ∧ isPPPLike s.Name s.IfaceType = false := by
  rw [statsPhase]
  refine foldl_inv _ _ ?_ srepre stats h
  intro acc m hacc s hs
  by_cases hn : mget m "name" ∈ names
  · rw [if_pos hn] at hs
    rcases updLast_mem _ _ _ s hs with hmem | ⟨t, ht, rfl⟩
    · exact hacc s hmem
    · simpa [applyStats] using hacc t ht
  · rw [if_neg hn] at hs
    exact hacc s hs

/-- The invariant holds of everything `GetInterfaceStats` returns. -/
theorem getInterfaceStats_mem_inv (initial detail statsR : Except String Reply)
    (l : List InterfaceStat) (h : GetInterfaceStats initial detail statsR = .ok l) :
    ∀ s ∈ l, s.Name ≠ "" ∧ isPPPLike s.Name s.IfaceType = false := by
  rcases initial with e | rep
  · exact absurd h (by simp [GetInterfaceStats])
  · rw [GetInterfaceStats] at h
    dsimp only at h
    by_cases hemp : (buildInitial rep.re).isEmpty
    · rw [if_pos hemp] at h
      obtain rfl := Except.ok.inj h
      intro s hs
      rw [List.isEmpty_iff.mp hemp] at hs
      simp at hs
    · rw [if_neg hemp] at h
      have h2 := detailPhase_mem ((buildInitial rep.re).map (fun s => s.Name))
        detail _ (buildInitial_mem rep.re)
      rcases statsR with e2 | srep
      · obtain rfl := Except.ok.inj h
        exact h2
      · dsimp only at h
        by_cases hsemp : srep.re.isEmpty
        · rw [if_pos hsemp] at h
          obtain rfl := Except.ok.inj h
          exact h2
        · rw [if_neg hsemp] at h
          obtain rfl := Except.ok.inj h
          exact statsPhase_mem _ _ _ h2

/-- C3: no interface record returned by `GetInterfaceStats` has a name
or a type containing "ppp" or "pppoe" as a case-insensitive substring —
a `pppoe-out1` / `ppp-out` interface never appears, whatever the letter
case. -/
theorem GetInterfaceStats_excludes_ppp (initial detail statsR : Except String Reply)
    (l : List InterfaceStat) (h : GetInterfaceStats initial detail statsR = .ok l) :
    ∀ s ∈ l,
      strContains (strToLower s.Name) "ppp" = false ∧
      strContains (strToLower s.Name) "pppoe" = false ∧
      strContains (strToLower s.IfaceType) "ppp" = false ∧
      strContains (strToLower s.IfaceType) "pppoe" = false := by
  intro s hs
  have hppp := (getInterfaceStats_mem_inv initial detail statsR l h s hs).2
  rw [isPPPLike] at hppp
  simp only [Bool.or_eq_false_iff] at hppp
  exact ⟨hppp.1.2, hppp.2, hppp.1.1.1, hppp.1.1.2⟩

/-- C3 witness: an interface listing carrying `pppoe-out1`/`ppp-out` (in
mixed case) and `ether1`/`ether` returns only the ethernet record, and
it satisfies the exclusion property. -/
theorem GetInterfaceStats_excludes_ppp_witness :
    GetInterfaceStats
        (.ok ⟨[[("name", "PPPoE-out1"), ("type", "ppp-out")],
               [("name", "ether1"), ("type", "ether")]]⟩)
        (.error "detail failed") (.error "stats failed") =
      .ok [{ Name := "ether1", IfaceType := "ether" }] ∧
    (strContains (strToLower "ether1") "ppp" = false ∧
     strContains (strToLower "ether1") "pppoe" = false ∧
     strContains (strToLower "ether") "ppp" = false ∧
     strContains (strToLower "ether") "pppoe" = false) := by
  refine ⟨by decide, ?_⟩
  exact GetInterfaceStats_excludes_ppp
    (.ok ⟨[[("name", "PPPoE-out1"), ("type", "ppp-out")],
           [("name", "ether1"), ("type", "ether")]]⟩)
    (.error "detail failed") (.error "stats failed")
    [{ Name := "ether1", IfaceType := "ether" }] (by decide)
    { Name := "ether1", IfaceType := "ether" } (by simp)

/-- C10: every interface record returned by `GetInterfaceStats` has a
non-empty name — listing records with an absent or empty name field are
skipped and produce no record. -/
theorem GetInterfaceStats_nonempty_names (initial detail statsR : Except String Reply)
    (l : List InterfaceStat) (h : GetInterfaceStats initial detail statsR = .ok l) :
    ∀ s ∈ l, s.Name ≠ "" := by
  intro s hs
  exact (getInterfaceStats_mem_inv initial detail statsR l h s hs).1

/-- C10 witness: a listing with a nameless record and a named one
returns only the named record, whose name is non-empty. -/
theorem GetInterfaceStats_nonempty_names_witness :
    GetInterfaceStats
        (.ok ⟨[[("type", "bridge")], [("name", "ether1"), ("type", "ether")]]⟩)
        (.error "detail failed") (.error "stats failed") =
      .ok [{ Name := "ether1", IfaceType := "ether" }] ∧
    ({ Name := "ether1", IfaceType := "ether" } : InterfaceStat).Name ≠ "" := by
  refine ⟨by decide, ?_⟩
  exact GetInterfaceStats_nonempty_names
    (.ok ⟨[[("type", "bridge")], [("name", "ether1"), ("type", "ether")]]⟩)
    (.error "detail failed") (.error "stats failed")
    [{ Name := "ether1", IfaceType := "ether" }] (by decide)
    { Name := "ether1", IfaceType := "ether" } (by simp)

/-- C9: on successful system-resources collection the emitted
memory-usage value is `TotalMemory - FreeMemory` in unsigned 64-bit
arithmetic: the exact difference when `FreeMemory ≤ TotalMemory`, and
the value wrapped modulo 2^64 — a (huge) positive number, never a
negative one or an error — when `FreeMemory > TotalMemory`. -/
theorem Collect_memoryUsage (mc : MikrotikCollector) (env : CollectorEnv)
    (r : SystemResource)
    (hc : env.connectRes = .ok ()) (hs : env.sysRes = .ok r)
    (hT : r.TotalMemory < 2 ^ 64) (hF : r.FreeMemory < 2 ^ 64) :
    Metric.memoryUsage ((r.TotalMemory + 2 ^ 64 - r.FreeMemory) % 2 ^ 64) ∈
      (Collect mc env).metrics ∧
    (r.FreeMemory ≤ r.TotalMemory →
      (r.TotalMemory + 2 ^ 64 - r.FreeMemory) % 2 ^ 64 =
        r.TotalMemory - r.FreeMemory) ∧
    (r.TotalMemory < r.FreeMemory →
      (r.TotalMemory + 2 ^ 64 - r.FreeMemory) % 2 ^ 64 =
        2 ^ 64 - (r.FreeMemory - r.TotalMemory) ∧
      0 < (r.TotalMemory + 2 ^ 64 - r.FreeMemory) % 2 ^ 64) := by
  refine ⟨?_, fun hle => by omega, fun hlt => ⟨by omega, by omega⟩⟩
  rw [Collect, hc]
  dsimp only
  rw [collectBody, hs]
  simp [sysMetricsOf]

/-- C9 witness: a record with 3 bytes total and 5 bytes free — the
emitted usage wraps to 2^64 - 2, a positive value. -/
theorem Collect_memoryUsage_witness :
    Metric.memoryUsage ((3 + 2 ^ 64 - 5) % 2 ^ 64) ∈
      (Collect ⟨false, false, false⟩
        { connectRes := .ok (), sysRes := .ok { FreeMemory := 5, TotalMemory := 3 },
          rbRes := .error "rb", ifRes := .error "if", healthRes := .error "he",
          bgpRes := .error "bg", pppRes := .error "pp", wlIfRes := .error "wi",
          wlClientRes := .error "wc" }).metrics ∧
    (3 + 2 ^ 64 - 5) % 2 ^ 64 = 2 ^ 64 - (5 - 3) ∧
    0 < (3 + 2 ^ 64 - 5) % 2 ^ 64 := by
  have h := Collect_memoryUsage ⟨false, false, false⟩
    { connectRes := .ok (), sysRes := .ok { FreeMemory := 5, TotalMemory := 3 },
      rbRes := .error "rb", ifRes := .error "if", healthRes := .error "he",
      bgpRes := .error "bg", pppRes := .error "pp", wlIfRes := .error "wi",
      wlClientRes := .error "wc" }
    { FreeMemory := 5, TotalMemory := 3 } rfl rfl (by norm_num) (by norm_num)
  exact ⟨h.1, (h.2.2 (by norm_num)).1, (h.2.2 (by norm_num)).2⟩

/-- The sequential `lastScrapeError` bookkeeping is equivalent to the
plain disjunction of the enabled subsystems' error outcomes. -/
theorem scrapeErrorFlag_eq (mc : MikrotikCollector) (env : CollectorEnv) :
    scrapeErrorFlag mc env =
      (isErr env.sysRes || isErr env.rbRes || isErr env.ifRes || isErr env.healthRes ||
       (mc.collectBGP && isErr env.bgpRes) || (mc.collectPPP && isErr env.pppRes) ||
       (mc.collectWireless && (isErr env.wlIfRes || isErr env.wlClientRes))) := by
  obtain ⟨cb, cp, cw⟩ := mc
  rw [scrapeErrorFlag]
  dsimp only
  generalize isErr env.sysRes = sE
  generalize isErr env.rbRes = rE
  generalize isErr env.ifRes = iE
  generalize isErr env.healthRes = hE
  generalize isErr env.bgpRes = bE
  generalize isErr env.pppRes = pE
  generalize isErr env.wlIfRes = wiE
  generalize isErr env.wlClientRes = wcE
  revert sE rE iE hE bE pE wiE wcE cb cp cw
  decide

/-- C1: when connecting fails, `Collect` emits exactly `up=false`,
`hadError=true` and the duration, invoking no subsystem collector; when
connecting succeeds, `up` stays true whatever the subsystems do, the
duration is always emitted, and the final `lastScrapeError` is true if
and only if at least one enabled subsystem call returned an error
(feature-unsupported results — `.ok none` for health/wireless, `.ok []`
for BGP/PPP — are not errors). -/
theorem Collect_orchestration (mc : MikrotikCollector) (env : CollectorEnv) :
    (∀ e, env.connectRes = .error e →
      Collect mc env =
        { metrics := [.up false, .scrapeDuration, .lastScrapeError true],
          invoked := [] }) ∧
    (env.connectRes = .ok () →
      Collect mc env =
        { metrics := collectBody mc env ++
            [.up true, .scrapeDuration,
             .lastScrapeError
               (isErr env.sysRes || isErr env.rbRes || isErr env.ifRes ||
                isErr env.healthRes || (mc.collectBGP && isErr env.bgpRes) ||
                (mc.collectPPP && isErr env.pppRes) ||
                (mc.collectWireless && (isErr env.wlIfRes || isErr env.wlClientRes)))],
          invoked := invokedList mc }) := by
  constructor
  · intro e h
    rw [Collect, h]
  · intro h
    rw [Collect, h]
    dsimp only
    rw [scrapeErrorFlag_eq]

/-- C1 witness: a failed connect short-circuits with `up=false`,
`hadError=true` and nothing invoked; a successful connect with one
failing subsystem (BGP enabled) keeps `up=true` and flags the error. -/
theorem Collect_orchestration_witness :
    Collect ⟨true, false, false⟩
        { connectRes := .error "dial tcp: refused",
          sysRes := .error "x", rbRes := .error "x", ifRes := .error "x",
          healthRes := .error "x", bgpRes := .error "x", pppRes := .error "x",
          wlIfRes := .error "x", wlClientRes := .error "x" } =
      { metrics := [.up false, .scrapeDuration, .lastScrapeError true],
        invoked := [] } ∧
    Collect ⟨true, false, false⟩
        { connectRes := .ok (),
          sysRes := .ok {}, rbRes := .ok {}, ifRes := .ok [],
          healthRes := .ok none, bgpRes := .error "peer fetch failed",
          pppRes := .ok [], wlIfRes := .ok none, wlClientRes := .ok none } =
      { metrics := collectBody ⟨true, false, false⟩
            { connectRes := .ok (),
              sysRes := .ok {}, rbRes := .ok {}, ifRes := .ok [],
              healthRes := .ok none, bgpRes := .error "peer fetch failed",
              pppRes := .ok [], wlIfRes := .ok none, wlClientRes := .ok none } ++
          [.up true, .scrapeDuration, .lastScrapeError true],
        invoked := invokedList ⟨true, false, false⟩ } := by
  constructor
  · exact (Collect_orchestration _ _).1 "dial tcp: refused" rfl
  · exact (Collect_orchestration _ _).2 rfl

end RosExporter
